import Mathlib

/-!
Verification of the RCON connection/session manager and server-state
synchronization layer of the allay-app repository, shallowly embedded in
Lean 4. The embedding follows `src/contexts/RconContext.tsx` (connection
registry, session coordinator and health monitor), the `useRcon` hook
(per-component variant), and `src/contexts/ServerStateContext.tsx`
(server status registry). The asynchronous Tauri command gateway is
modelled as a record of per-scenario oracles returning `Except`; each
operation additionally emits a trace of gateway calls and registry
updates so that ordering and call-count properties can be stated.
-/

set_option autoImplicit false

namespace Allay

/-- Connection parameters, `RconConfig` in `RconContext.tsx`. -/
structure RconConfig where
  host : String
  port : Nat
  password : String
deriving DecidableEq, Repr

/-- Per-server connection state, `RconConnection` in `RconContext.tsx`.
The TS `error: string | null` field becomes `Option String`. -/
structure RconConnection where
  serverName : String
  isConnected : Bool
  isConnecting : Bool
  error : Option String
  config : RconConfig
deriving DecidableEq, Repr

/-- `DEFAULT_RCON_CONFIG` from `RconContext.tsx`. -/
def DEFAULT_RCON_CONFIG : RconConfig :=
  { host := "127.0.0.1", port := 25575, password := "minecraft" }

/-- The default entry created lazily by `updateConnection` when a server
name is first referenced. -/
def defaultConn (name : String) : RconConnection :=
  { serverName := name, isConnected := false, isConnecting := false,
    error := none, config := DEFAULT_RCON_CONFIG }

/-- A `Partial<RconConnection>` update record: `some` means the field is
present in the partial object. `error := some none` models `error: null`.
`serverName` is never passed at any call site, so it is omitted. -/
structure ConnUpdate where
  isConnected : Option Bool := none
  isConnecting : Option Bool := none
  error : Option (Option String) := none
  config : Option RconConfig := none
deriving DecidableEq, Repr

/-- Spread-merge `{...existing, ...updates}`. -/
def applyUpdate (c : RconConnection) (u : ConnUpdate) : RconConnection :=
  { serverName := c.serverName
    isConnected := u.isConnected.getD c.isConnected
    isConnecting := u.isConnecting.getD c.isConnecting
    error := u.error.getD c.error
    config := u.config.getD c.config }

/-- The connection registry: the `Map<string, RconConnection>` held by the
provider, as an insertion-ordered association list. -/
abbrev Registry := List (String × RconConnection)

/-- `connections.get(serverName)`. -/
def lookupConn (reg : Registry) (name : String) : Option RconConnection :=
  match reg with
  | [] => none
  | (n, c) :: rest => if n = name then some c else lookupConn rest name

/-- `Map.set`: replace in place, else append. -/
def setConn (reg : Registry) (name : String) (c : RconConnection) : Registry :=
  match reg with
  | [] => [(name, c)]
  | (n, c0) :: rest =>
      if n = name then (n, c) :: rest else (n, c0) :: setConn rest name c

/-- `updateConnection` from `RconContext.tsx`: merge the partial update
into the existing entry, or overlay it on a fresh default entry. -/
def updateConnection (reg : Registry) (name : String) (u : ConnUpdate) : Registry :=
  match lookupConn reg name with
  | some c => setConn reg name (applyUpdate c u)
  | none => setConn reg name (applyUpdate (defaultConn name) u)

/-- The gateway operations the core invokes, tagged with the argument
values that matter to the claims. -/
inductive GwOp where
  | getPassword
  | setupRcon (cfg : RconConfig)
  | connectRcon
  | isRconConnected
  | isServerRunning
  | disconnectRcon
  | executeCmd (cmd : String)
deriving DecidableEq, Repr

/-- Trace events: a gateway invocation or a registry merge-update. -/
inductive Event where
  | gw (op : GwOp)
  | regUpdate (u : ConnUpdate)
deriving DecidableEq, Repr

/-- The Command Gateway for one server, as per-scenario oracles. `Except`
models a rejected Tauri invoke; the error payload is the stringified
backend error that the TS code interpolates into messages. -/
structure Gateway where
  getPassword : Except String String
  setupRcon : RconConfig → Except String Unit
  connectRcon : Except String Unit
  isRconConnected : Except String Bool
  isServerRunning : Except String Bool
  disconnectRcon : Except String Unit
  executeCmd : String → Except String String

/-- `getServerRconPassword` from `RconContext.tsx`: on fetch failure it
falls back to the static default password (log-only, non-fatal). -/
def resolvedPassword (gw : Gateway) : String :=
  match gw.getPassword with
  | .ok p => p
  | .error _ => DEFAULT_RCON_CONFIG.password

/-- The merge-update that `connect` performs before its first await. -/
def connStartUpdate : ConnUpdate :=
  { isConnecting := some true, error := some none }

/-- The merge-update `connect` performs on any failure of the setup /
connect / verify steps; `setupRcon` rethrows the original error, so the
recorded message always carries the `Failed to connect to RCON:` prefix. -/
def connFailUpdate (e : String) : ConnUpdate :=
  { isConnected := some false, isConnecting := some false,
    error := some (some ("Failed to connect to RCON: " ++ e)) }

/-- `connect` from `RconContext.tsx` (registry variant): re-entry guard on
`existing?.isConnecting`, mark connecting, resolve the dynamic password,
configure RCON, connect, verify with `is_rcon_connected`, and commit the
verified flag together with the working config. Returns the new registry,
the event trace in program order, and the promise outcome. -/
def connect (gw : Gateway) (name : String) (cfg : RconConfig) (reg : Registry) :
    Registry × List Event × Except String Unit :=
  if ((lookupConn reg name).map RconConnection.isConnecting).getD false then
    (reg, ([], .ok ()))
  else
    let reg1 := updateConnection reg name connStartUpdate
    let dynamicConfig := { cfg with password := resolvedPassword gw }
    match gw.setupRcon dynamicConfig with
    | .error e =>
        (updateConnection reg1 name (connFailUpdate e),
         ([.regUpdate connStartUpdate, .gw .getPassword, .gw (.setupRcon dynamicConfig),
           .regUpdate (connFailUpdate e)], .error e))
    | .ok _ =>
        match gw.connectRcon with
        | .error e =>
            (updateConnection reg1 name (connFailUpdate e),
             ([.regUpdate connStartUpdate, .gw .getPassword, .gw (.setupRcon dynamicConfig),
               .gw .connectRcon, .regUpdate (connFailUpdate e)], .error e))
        | .ok _ =>
            match gw.isRconConnected with
            | .error e =>
                (updateConnection reg1 name (connFailUpdate e),
                 ([.regUpdate connStartUpdate, .gw .getPassword, .gw (.setupRcon dynamicConfig),
                   .gw .connectRcon, .gw .isRconConnected, .regUpdate (connFailUpdate e)], .error e))
            | .ok connected =>
                let u : ConnUpdate :=
                  { isConnected := some connected, isConnecting := some false,
                    error := some none, config := some dynamicConfig }
                (updateConnection reg1 name u,
                 ([.regUpdate connStartUpdate, .gw .getPassword, .gw (.setupRcon dynamicConfig),
                   .gw .connectRcon, .gw .isRconConnected, .regUpdate u], .ok ()))

/-- `disconnect` from `RconContext.tsx`: on gateway success clear the flag
and the error; on gateway failure record an error message only. The catch
block does not rethrow, so the promise always resolves. -/
def disconnect (gw : Gateway) (name : String) (reg : Registry) :
    Registry × List Event × Except String Unit :=
  match gw.disconnectRcon with
  | .ok _ =>
      let u : ConnUpdate := { isConnected := some false, error := some none }
      (updateConnection reg name u, ([.gw .disconnectRcon, .regUpdate u], .ok ()))
  | .error e =>
      let u : ConnUpdate :=
        { error := some (some ("Failed to disconnect from RCON: " ++ e)) }
      (updateConnection reg name u, ([.gw .disconnectRcon, .regUpdate u], .ok ()))

/-- `executeCommand` from `RconContext.tsx` (registry variant): clear the
error, invoke the gateway; on success return the response, on failure
record an error message and rethrow. `isConnected` is never written. -/
def executeCommand (gw : Gateway) (name : String) (cmd : String) (reg : Registry) :
    Registry × List Event × Except String String :=
  let clearU : ConnUpdate := { error := some none }
  let reg1 := updateConnection reg name clearU
  match gw.executeCmd cmd with
  | .ok r => (reg1, ([.regUpdate clearU, .gw (.executeCmd cmd)], .ok r))
  | .error e =>
      let u : ConnUpdate :=
        { error := some (some ("Failed to execute RCON command: " ++ e)) }
      (updateConnection reg1 name u,
       ([.regUpdate clearU, .gw (.executeCmd cmd), .regUpdate u], .error e))

/-- `checkServerRunning` from `RconContext.tsx`: the try/catch converts a
gateway failure into `false`, so the caller cannot distinguish "not
running" from "query failed". -/
def checkServerRunning (gw : Gateway) : Bool :=
  match gw.isServerRunning with
  | .ok b => b
  | .error _ => false

/-- One iteration of the health-monitor interval body in
`RconContext.tsx` for the snapshot entry `(name, c)`: entries marked
connected are probed (`is_server_running`, then either a full
`disconnect` or an `is_rcon_connected` re-query whose result is stored
only when it disagrees); other entries are skipped. The try/catch around
the body only ever sees an exception from the `is_rcon_connected` invoke,
since `checkServerRunning` and `disconnect` swallow their own. -/
def monitorStep (gw : Gateway) (reg : Registry) (name : String) (c : RconConnection) :
    Registry × List Event :=
  if c.isConnected then
    if checkServerRunning gw then
      match gw.isRconConnected with
      | .ok still =>
          if still = c.isConnected then
            (reg, [.gw .isServerRunning, .gw .isRconConnected])
          else
            (updateConnection reg name { isConnected := some still },
             [.gw .isServerRunning, .gw .isRconConnected,
              .regUpdate { isConnected := some still }])
      | .error _ => (reg, [.gw .isServerRunning, .gw .isRconConnected])
    else
      match disconnect gw name reg with
      | (reg1, evs, _) => (reg1, .gw .isServerRunning :: evs)
  else (reg, [])

/-- A full monitor tick: fold the step over the snapshot of entries taken
when the interval fired, threading the live registry. -/
def monitorTick (gw : String → Gateway) (reg : Registry) : Registry × List Event :=
  reg.foldl
    (fun acc entry =>
      match monitorStep (gw entry.1) acc.1 entry.1 entry.2 with
      | (r, evs) => (r, acc.2 ++ evs))
    (reg, [])

/-- Local state of the per-component `useRcon` hook. -/
structure HookState where
  isConnected : Bool
  isConnecting : Bool
  error : Option String
deriving DecidableEq, Repr

/-- The hook state on mount. -/
def initialHookState : HookState :=
  { isConnected := false, isConnecting := false, error := none }

/-- Password resolution in the hook: the fallback is the password of the
`rconConfig` prop, not the global default. -/
def hookResolvedPassword (gw : Gateway) (rconConfig : RconConfig) : String :=
  match gw.getPassword with
  | .ok p => p
  | .error _ => rconConfig.password

/-- `connect` from the `useRcon` hook: same guard and password/setup
steps, but no verification query — `isConnected` is set to `true` as soon
as the `connect_rcon` invoke resolves — and no config is stored. The
`finally` clears `isConnecting` on every path. -/
def hookConnect (gw : Gateway) (rconConfig : RconConfig) (s : HookState) :
    HookState × List Event × Except String Unit :=
  if s.isConnecting then (s, ([], .ok ()))
  else
    let s1 : HookState := { s with isConnecting := true, error := none }
    let dynamicConfig := { rconConfig with password := hookResolvedPassword gw rconConfig }
    match gw.setupRcon dynamicConfig with
    | .error e =>
        ({ s1 with isConnected := false, isConnecting := false,
                   error := some ("Failed to connect to RCON: " ++ e) },
         ([.gw .getPassword, .gw (.setupRcon dynamicConfig)], .error e))
    | .ok _ =>
        match gw.connectRcon with
        | .error e =>
            ({ s1 with isConnected := false, isConnecting := false,
                       error := some ("Failed to connect to RCON: " ++ e) },
             ([.gw .getPassword, .gw (.setupRcon dynamicConfig), .gw .connectRcon], .error e))
        | .ok _ =>
            ({ s1 with isConnected := true, isConnecting := false },
             ([.gw .getPassword, .gw (.setupRcon dynamicConfig), .gw .connectRcon], .ok ()))

/-- `executeCommand` from the `useRcon` hook: clears the error, and uses
both outcomes as liveness evidence — success flips `isConnected` to
`true` when it was `false`, failure sets it to `false`, records the error
and rethrows. -/
def hookExecuteCommand (gw : Gateway) (cmd : String) (s : HookState) :
    HookState × Except String String :=
  let s1 : HookState := { s with error := none }
  match gw.executeCmd cmd with
  | .ok r =>
      (if s1.isConnected then s1 else { s1 with isConnected := true }, .ok r)
  | .error e =>
      ({ s1 with isConnected := false,
                 error := some ("Failed to execute RCON command: " ++ e) },
       .error e)

/-- `checkConnectionStatus` from the `useRcon` hook, the body of its
adaptive poll: store the queried flag when it changed; on a query failure
the catch sets `isConnected` to `false` and returns `false`. -/
def checkConnectionStatus (gw : Gateway) (s : HookState) : HookState × Bool :=
  match gw.isRconConnected with
  | .ok c => (if c = s.isConnected then s else { s with isConnected := c }, c)
  | .error _ => ({ s with isConnected := false }, false)

/-- Poll cadence of the registry health monitor, in milliseconds. -/
def registryPollIntervalMs : Nat := 5000

/-- Adaptive poll cadence of the `useRcon` hook, in milliseconds. -/
def hookPollIntervalMs (isConnecting : Bool) : Nat :=
  if isConnecting then 3000 else 15000

/-- Coarse server status, `ServerStatus` in `ServerStateContext.tsx`. -/
inductive ServerStatus where
  | offline
  | online
deriving DecidableEq, Repr

/-- The status registry `Record<string, ServerStatus>`. -/
abbrev StatusMap := List (String × ServerStatus)

/-- Status lookup. -/
def lookupStatus (st : StatusMap) (name : String) : Option ServerStatus :=
  match st with
  | [] => none
  | (n, s) :: rest => if n = name then some s else lookupStatus rest name

/-- `getServerStatus`: absent entries read as `offline`. -/
def getServerStatus (st : StatusMap) (name : String) : ServerStatus :=
  (lookupStatus st name).getD .offline

/-- `setServerStatus`: spread-set of one key. -/
def setServerStatus (st : StatusMap) (name : String) (s : ServerStatus) : StatusMap :=
  match st with
  | [] => [(name, s)]
  | (n, s0) :: rest =>
      if n = name then (n, s) :: rest else (n, s0) :: setServerStatus rest name s

/-- Trace events of the status registry operations. -/
inductive StatusEvent where
  | set (name : String) (s : ServerStatus)
  | gwLoaderQuery
  | gwStart (loader : String)
  | gwStop
deriving DecidableEq, Repr

/-- Backend oracles used by the status registry. -/
structure ServerGateway where
  getLoaderType : Except String String
  startServerCmd : String → Except String String
  stopServerCmd : Except String String

/-- `startServer` from `ServerStateContext.tsx`: optimistically set
`online`, query the loader kind, start the backend process; any failure
reverts to `offline` and rethrows. -/
def startServer (sgw : ServerGateway) (name : String) (st : StatusMap) :
    StatusMap × List StatusEvent × Except String Unit :=
  let st1 := setServerStatus st name .online
  match sgw.getLoaderType with
  | .error e =>
      (setServerStatus st1 name .offline,
       ([.set name .online, .gwLoaderQuery, .set name .offline], .error e))
  | .ok loader =>
      match sgw.startServerCmd loader with
      | .error e =>
          (setServerStatus st1 name .offline,
           ([.set name .online, .gwLoaderQuery, .gwStart loader, .set name .offline], .error e))
      | .ok _ =>
          (st1, ([.set name .online, .gwLoaderQuery, .gwStart loader], .ok ()))

/-- `stopServer` from `ServerStateContext.tsx`: optimistically set
`offline`, stop the backend process; a failure rethrows but the status is
not reverted. -/
def stopServer (sgw : ServerGateway) (name : String) (st : StatusMap) :
    StatusMap × List StatusEvent × Except String Unit :=
  let st1 := setServerStatus st name .offline
  match sgw.stopServerCmd with
  | .error e => (st1, ([.set name .offline, .gwStop], .error e))
  | .ok _ => (st1, ([.set name .offline, .gwStop], .ok ()))

/-! Shared lemmas about the registry primitives. -/

theorem lookupConn_setConn (reg : Registry) (name : String) (c : RconConnection) :
    lookupConn (setConn reg name c) name = some c := by
  induction reg with
  | nil => simp [setConn, lookupConn]
  | cons hd tl ih =>
      obtain ⟨n, c0⟩ := hd
      by_cases h : n = name
      · simp [setConn, lookupConn, h]
      · simp [setConn, lookupConn, h, ih]

theorem lookupConn_updateConnection (reg : Registry) (name : String) (u : ConnUpdate) :
    lookupConn (updateConnection reg name u) name
      = some (applyUpdate ((lookupConn reg name).getD (defaultConn name)) u) := by
  unfold updateConnection
  cases h : lookupConn reg name with
  | none => simp [h, lookupConn_setConn]
  | some c => simp [h, lookupConn_setConn]

theorem lookupStatus_setServerStatus (st : StatusMap) (name : String) (s : ServerStatus) :
    lookupStatus (setServerStatus st name s) name = some s := by
  induction st with
  | nil => simp [setServerStatus, lookupStatus]
  | cons hd tl ih =>
      obtain ⟨n, s0⟩ := hd
      by_cases h : n = name
      · simp [setServerStatus, lookupStatus, h]
      · simp [setServerStatus, lookupStatus, h, ih]

theorem getServerStatus_setServerStatus (st : StatusMap) (name : String) (s : ServerStatus) :
    getServerStatus (setServerStatus st name s) name = s := by
  simp [getServerStatus, lookupStatus_setServerStatus]

/-! Concrete gateways used to instantiate the theorems. -/

/-- A gateway where every operation succeeds and verification reports a
live connection; the password fetch returns "abc123". -/
def gwHappy : Gateway :=
  { getPassword := .ok "abc123"
    setupRcon := fun _ => .ok ()
    connectRcon := .ok ()
    isRconConnected := .ok true
    isServerRunning := .ok true
    disconnectRcon := .ok ()
    executeCmd := fun _ => .ok "done" }

/-- Like `gwHappy` but the `is_rcon_connected` verification reports a dead
connection. -/
def gwVerFalse : Gateway := { gwHappy with isRconConnected := .ok false }

/-- Claim C1: for every server name, a connect call in which the dynamic
password fetch returns `P`, configure RCON and connect RCON succeed, and
the verification query returns `true`, terminates with
`isConnected = true`, `isConnecting = false`, `error = null` and the
config equal to the default config with its password replaced by `P`. -/
theorem connect_success_sets_connected_state
    (gw : Gateway) (name P : String) (reg : Registry)
    (hguard : ((lookupConn reg name).map RconConnection.isConnecting).getD false = false)
    (hpw : gw.getPassword = .ok P)
    (hsetup : gw.setupRcon { DEFAULT_RCON_CONFIG with password := P } = .ok ())
    (hconn : gw.connectRcon = .ok ())
    (hver : gw.isRconConnected = .ok true) :
    (connect gw name DEFAULT_RCON_CONFIG reg).2.2 = .ok () ∧
    (lookupConn (connect gw name DEFAULT_RCON_CONFIG reg).1 name).map RconConnection.isConnected
      = some true ∧
    (lookupConn (connect gw name DEFAULT_RCON_CONFIG reg).1 name).map RconConnection.isConnecting
      = some false ∧
    (lookupConn (connect gw name DEFAULT_RCON_CONFIG reg).1 name).map RconConnection.error
      = some none ∧
    (lookupConn (connect gw name DEFAULT_RCON_CONFIG reg).1 name).map RconConnection.config
      = some { host := "127.0.0.1", port := 25575, password := P } := by
  have hrp : resolvedPassword gw = P := by simp [resolvedPassword, hpw]
  have hsetup2 : gw.setupRcon { host := "127.0.0.1", port := 25575, password := P }
      = Except.ok () := by
    simpa [DEFAULT_RCON_CONFIG] using hsetup
  simp [connect, hguard, hrp, hsetup2, hconn, hver, lookupConn_updateConnection,
        applyUpdate, DEFAULT_RCON_CONFIG]

/-- Witness for claim C1 at server "Survival", empty registry, password
"abc123". -/
theorem connect_success_sets_connected_state_witness :
    (((lookupConn ([] : Registry) "Survival").map RconConnection.isConnecting).getD false = false) ∧
    gwHappy.getPassword = .ok "abc123" ∧
    ((connect gwHappy "Survival" DEFAULT_RCON_CONFIG []).2.2 = .ok () ∧
     (lookupConn (connect gwHappy "Survival" DEFAULT_RCON_CONFIG []).1 "Survival").map
        RconConnection.isConnected = some true ∧
     (lookupConn (connect gwHappy "Survival" DEFAULT_RCON_CONFIG []).1 "Survival").map
        RconConnection.isConnecting = some false ∧
     (lookupConn (connect gwHappy "Survival" DEFAULT_RCON_CONFIG []).1 "Survival").map
        RconConnection.error = some none ∧
     (lookupConn (connect gwHappy "Survival" DEFAULT_RCON_CONFIG []).1 "Survival").map
        RconConnection.config = some { host := "127.0.0.1", port := 25575, password := "abc123" }) :=
  ⟨rfl, rfl,
   connect_success_sets_connected_state gwHappy "Survival" "abc123" [] rfl rfl rfl rfl rfl⟩

/-- Claim C10: connect can resolve successfully while leaving the entry at
`isConnected = false` with `error = null`: whenever the connect RCON call
succeeds but the verification query returns `false`, the caller receives
a normal completion yet the server remains marked disconnected with no
recorded error. -/
theorem connect_verification_false_silent
    (gw : Gateway) (name : String) (cfg : RconConfig) (reg : Registry)
    (hguard : ((lookupConn reg name).map RconConnection.isConnecting).getD false = false)
    (hsetup : gw.setupRcon { cfg with password := resolvedPassword gw } = .ok ())
    (hconn : gw.connectRcon = .ok ())
    (hver : gw.isRconConnected = .ok false) :
    (connect gw name cfg reg).2.2 = .ok () ∧
    (lookupConn (connect gw name cfg reg).1 name).map RconConnection.isConnected = some false ∧
    (lookupConn (connect gw name cfg reg).1 name).map RconConnection.error = some none := by
  simp [connect, hguard, hsetup, hconn, hver, lookupConn_updateConnection, applyUpdate]

/-- Witness for claim C10 at server "Survival", empty registry. -/
theorem connect_verification_false_silent_witness :
    (((lookupConn ([] : Registry) "Survival").map RconConnection.isConnecting).getD false = false) ∧
    gwVerFalse.isRconConnected = .ok false ∧
    ((connect gwVerFalse "Survival" DEFAULT_RCON_CONFIG []).2.2 = .ok () ∧
     (lookupConn (connect gwVerFalse "Survival" DEFAULT_RCON_CONFIG []).1 "Survival").map
        RconConnection.isConnected = some false ∧
     (lookupConn (connect gwVerFalse "Survival" DEFAULT_RCON_CONFIG []).1 "Survival").map
        RconConnection.error = some none) :=
  ⟨rfl, rfl,
   connect_verification_false_silent gwVerFalse "Survival" DEFAULT_RCON_CONFIG [] rfl rfl rfl rfl⟩

/-- Like `gwHappy` but the configure-RCON step rejects with
"ECONNREFUSED". -/
def gwSetupFail : Gateway :=
  { gwHappy with setupRcon := fun _ => .error "ECONNREFUSED" }

/-- Counterexample to claim C5: when configure RCON throws
"ECONNREFUSED", the recorded error message is
"Failed to connect to RCON: ECONNREFUSED" (the setup helper rethrows the
original error and the connect catch builds the message), not
"Failed to setup RCON: ECONNREFUSED" as claimed. -/
theorem connect_setup_failure_message_cex :
    (lookupConn (connect gwSetupFail "Survival" DEFAULT_RCON_CONFIG []).1 "Survival").map
        RconConnection.error
      = some (some "Failed to connect to RCON: ECONNREFUSED") ∧
    ¬ ((lookupConn (connect gwSetupFail "Survival" DEFAULT_RCON_CONFIG []).1 "Survival").map
        RconConnection.error
      = some (some "Failed to setup RCON: ECONNREFUSED")) := by
  exact ⟨rfl, by decide⟩

/-- Claim C5 (amended): a connect call whose configure-RCON step fails
with message `e` terminates with `isConnected = false`,
`isConnecting = false`, `error = "Failed to connect to RCON: " ++ e`, and
the call rejects with the original error. -/
theorem connect_setup_failure_final_state
    (gw : Gateway) (name : String) (cfg : RconConfig) (reg : Registry) (e : String)
    (hguard : ((lookupConn reg name).map RconConnection.isConnecting).getD false = false)
    (hsetup : gw.setupRcon { cfg with password := resolvedPassword gw } = .error e) :
    (connect gw name cfg reg).2.2 = .error e ∧
    (lookupConn (connect gw name cfg reg).1 name).map RconConnection.isConnected = some false ∧
    (lookupConn (connect gw name cfg reg).1 name).map RconConnection.isConnecting = some false ∧
    (lookupConn (connect gw name cfg reg).1 name).map RconConnection.error
      = some (some ("Failed to connect to RCON: " ++ e)) := by
  simp [connect, hguard, hsetup, lookupConn_updateConnection, applyUpdate, connFailUpdate]

/-- Witness for amended claim C5 at server "Survival", empty registry,
setup error "ECONNREFUSED". -/
theorem connect_setup_failure_final_state_witness :
    gwSetupFail.setupRcon
        { DEFAULT_RCON_CONFIG with password := resolvedPassword gwSetupFail }
      = .error "ECONNREFUSED" ∧
    ((connect gwSetupFail "Survival" DEFAULT_RCON_CONFIG []).2.2 = .error "ECONNREFUSED" ∧
     (lookupConn (connect gwSetupFail "Survival" DEFAULT_RCON_CONFIG []).1 "Survival").map
        RconConnection.isConnected = some false ∧
     (lookupConn (connect gwSetupFail "Survival" DEFAULT_RCON_CONFIG []).1 "Survival").map
        RconConnection.isConnecting = some false ∧
     (lookupConn (connect gwSetupFail "Survival" DEFAULT_RCON_CONFIG []).1 "Survival").map
        RconConnection.error = some (some ("Failed to connect to RCON: " ++ "ECONNREFUSED"))) :=
  ⟨rfl,
   connect_setup_failure_final_state gwSetupFail "Survival" DEFAULT_RCON_CONFIG []
     "ECONNREFUSED" rfl rfl⟩

/-- Number of `connect_rcon` gateway invocations in a trace. -/
def countConnectCalls : List Event → Nat
  | [] => 0
  | Event.gw GwOp.connectRcon :: rest => countConnectCalls rest + 1
  | _ :: rest => countConnectCalls rest

/-- Claim C3: the `isConnecting` registry update is the first action of a
connect call, preceding every gateway call; immediately after it the
registry gates re-entry, so any connect call issued while one is in
flight is a no-op issuing no gateway calls, and the single in-flight
attempt issues exactly one connect RCON call. -/
theorem connect_reentry_guard
    (gw : Gateway) (name : String) (cfg : RconConfig) (reg : Registry)
    (hguard : ((lookupConn reg name).map RconConnection.isConnecting).getD false = false)
    (hsetup : gw.setupRcon { cfg with password := resolvedPassword gw } = .ok ()) :
    (connect gw name cfg reg).2.1.head? = some (.regUpdate connStartUpdate) ∧
    ((lookupConn (updateConnection reg name connStartUpdate) name).map
        RconConnection.isConnecting).getD false = true ∧
    (∀ reg2 : Registry,
      ((lookupConn reg2 name).map RconConnection.isConnecting).getD false = true →
      connect gw name cfg reg2 = (reg2, ([], .ok ()))) ∧
    countConnectCalls (connect gw name cfg reg).2.1 = 1 := by
  refine ⟨?_, ?_, ?_, ?_⟩
  · cases h1 : gw.connectRcon with
    | error e => simp [connect, hguard, hsetup, h1]
    | ok u =>
        cases h2 : gw.isRconConnected with
        | error e => simp [connect, hguard, hsetup, h1, h2]
        | ok b => simp [connect, hguard, hsetup, h1, h2]
  · simp [lookupConn_updateConnection, applyUpdate, connStartUpdate]
  · intro reg2 h2
    simp [connect, h2]
  · cases h1 : gw.connectRcon with
    | error e => simp [connect, hguard, hsetup, h1, countConnectCalls]
    | ok u =>
        cases h2 : gw.isRconConnected with
        | error e => simp [connect, hguard, hsetup, h1, h2, countConnectCalls]
        | ok b => simp [connect, hguard, hsetup, h1, h2, countConnectCalls]

/-- Witness for claim C3 at server "Survival", empty registry. -/
theorem connect_reentry_guard_witness :
    (((lookupConn ([] : Registry) "Survival").map RconConnection.isConnecting).getD false
      = false) ∧
    ((connect gwHappy "Survival" DEFAULT_RCON_CONFIG []).2.1.head?
        = some (.regUpdate connStartUpdate) ∧
     ((lookupConn (updateConnection [] "Survival" connStartUpdate) "Survival").map
        RconConnection.isConnecting).getD false = true ∧
     (∀ reg2 : Registry,
       ((lookupConn reg2 "Survival").map RconConnection.isConnecting).getD false = true →
       connect gwHappy "Survival" DEFAULT_RCON_CONFIG reg2 = (reg2, ([], .ok ()))) ∧
     countConnectCalls (connect gwHappy "Survival" DEFAULT_RCON_CONFIG []).2.1 = 1) :=
  ⟨rfl, connect_reentry_guard gwHappy "Survival" DEFAULT_RCON_CONFIG [] rfl rfl⟩

/-- Like `gwHappy` but the disconnect RCON call rejects. -/
def gwDiscFail : Gateway := { gwHappy with disconnectRcon := .error "boom" }

/-- Counterexample to claim C7: when the gateway disconnect RCON call
fails, the disconnect promise still resolves normally — the failure is
swallowed, not rethrown to the caller. -/
theorem disconnect_failure_not_rethrown_cex :
    gwDiscFail.disconnectRcon = .error "boom" ∧
    (disconnect gwDiscFail "Survival" []).2.2 = .ok () := ⟨rfl, rfl⟩

/-- Claim C7 (amended): disconnect invokes the gateway disconnect RCON
operation; on success the entry gets `isConnected = false` and
`error = null`; on failure the entry gets a failure message while
`isConnected` is left unchanged — and in either case the call resolves
normally: the failure is swallowed, not rethrown. -/
theorem disconnect_behaviour (gw : Gateway) (name : String) (reg : Registry) :
    (disconnect gw name reg).2.1.head? = some (.gw .disconnectRcon) ∧
    (∀ u : Unit, gw.disconnectRcon = .ok u →
      (lookupConn (disconnect gw name reg).1 name).map RconConnection.isConnected
        = some false ∧
      (lookupConn (disconnect gw name reg).1 name).map RconConnection.error = some none) ∧
    (∀ e, gw.disconnectRcon = .error e →
      (lookupConn (disconnect gw name reg).1 name).map RconConnection.error
        = some (some ("Failed to disconnect from RCON: " ++ e)) ∧
      (lookupConn (disconnect gw name reg).1 name).map RconConnection.isConnected
        = some (((lookupConn reg name).map RconConnection.isConnected).getD false)) ∧
    (disconnect gw name reg).2.2 = .ok () := by
  have hbase : ((lookupConn reg name).getD (defaultConn name)).isConnected
      = ((lookupConn reg name).map RconConnection.isConnected).getD false := by
    cases lookupConn reg name <;> simp [defaultConn]
  refine ⟨?_, ?_, ?_, ?_⟩
  · cases h : gw.disconnectRcon <;> simp [disconnect, h]
  · intro u h
    simp [disconnect, h, lookupConn_updateConnection, applyUpdate]
  · intro e h
    simp [disconnect, h, lookupConn_updateConnection, applyUpdate, hbase]
  · cases h : gw.disconnectRcon <;> simp [disconnect, h]

/-- Witness for amended claim C7: the success case at `gwHappy` and the
failure case at `gwDiscFail`, both on a registry holding a connected
"Survival" entry. -/
theorem disconnect_behaviour_witness :
    gwHappy.disconnectRcon = .ok () ∧
    ((lookupConn
        (disconnect gwHappy "Survival"
          [("Survival", { defaultConn "Survival" with isConnected := true })]).1 "Survival").map
        RconConnection.isConnected = some false ∧
     (lookupConn
        (disconnect gwHappy "Survival"
          [("Survival", { defaultConn "Survival" with isConnected := true })]).1 "Survival").map
        RconConnection.error = some none) ∧
    gwDiscFail.disconnectRcon = .error "boom" ∧
    ((lookupConn
        (disconnect gwDiscFail "Survival"
          [("Survival", { defaultConn "Survival" with isConnected := true })]).1 "Survival").map
        RconConnection.error = some (some ("Failed to disconnect from RCON: " ++ "boom")) ∧
     (lookupConn
        (disconnect gwDiscFail "Survival"
          [("Survival", { defaultConn "Survival" with isConnected := true })]).1 "Survival").map
        RconConnection.isConnected
       = some (((lookupConn
            [("Survival", { defaultConn "Survival" with isConnected := true })] "Survival").map
            RconConnection.isConnected).getD false)) ∧
    (disconnect gwDiscFail "Survival"
        [("Survival", { defaultConn "Survival" with isConnected := true })]).2.2 = .ok () :=
  ⟨rfl,
   (disconnect_behaviour gwHappy "Survival"
      [("Survival", { defaultConn "Survival" with isConnected := true })]).2.1 () rfl,
   rfl,
   (disconnect_behaviour gwDiscFail "Survival"
      [("Survival", { defaultConn "Survival" with isConnected := true })]).2.2.1 "boom" rfl,
   (disconnect_behaviour gwDiscFail "Survival"
      [("Survival", { defaultConn "Survival" with isConnected := true })]).2.2.2⟩

/-- Like `gwHappy` but the execute-command invoke rejects. -/
def gwExecFail : Gateway := { gwHappy with executeCmd := fun _ => .error "boom" }

/-- Counterexample to claim C2: with the registry showing
`isConnected = false` for "Survival" and a successful gateway execute
call, the registry-level executeCommand leaves the entry at
`isConnected = false` — it is not flipped to `true`. -/
theorem executeCommand_no_flip_cex :
    gwHappy.executeCmd "list" = .ok "done" ∧
    (lookupConn [("Survival", defaultConn "Survival")] "Survival").map
        RconConnection.isConnected = some false ∧
    (lookupConn
        (executeCommand gwHappy "Survival" "list" [("Survival", defaultConn "Survival")]).1
        "Survival").map RconConnection.isConnected = some false :=
  ⟨rfl, rfl, rfl⟩

/-- Claim C2 (amended): the registry-level executeCommand never writes
`isConnected` at all — on success it clears the error and returns the
response, on failure it records a non-null error and rethrows, leaving
`isConnected` as it was. The claimed liveness flips exist only in the
per-component `useRcon` variant, whose executeCommand sets
`isConnected = true` on success and `isConnected = false` with an error
on failure, rethrowing the failure. -/
theorem executeCommand_behaviour
    (gw : Gateway) (name cmd : String) (reg : Registry) (s : HookState) :
    (lookupConn (executeCommand gw name cmd reg).1 name).map RconConnection.isConnected
      = some (((lookupConn reg name).map RconConnection.isConnected).getD false) ∧
    (∀ r, gw.executeCmd cmd = .ok r →
      (executeCommand gw name cmd reg).2.2 = .ok r ∧
      (lookupConn (executeCommand gw name cmd reg).1 name).map RconConnection.error
        = some none) ∧
    (∀ e, gw.executeCmd cmd = .error e →
      (executeCommand gw name cmd reg).2.2 = .error e ∧
      (lookupConn (executeCommand gw name cmd reg).1 name).map RconConnection.error
        = some (some ("Failed to execute RCON command: " ++ e))) ∧
    (∀ r, gw.executeCmd cmd = .ok r →
      (hookExecuteCommand gw cmd s).1.isConnected = true ∧
      (hookExecuteCommand gw cmd s).2 = .ok r) ∧
    (∀ e, gw.executeCmd cmd = .error e →
      (hookExecuteCommand gw cmd s).1.isConnected = false ∧
      (hookExecuteCommand gw cmd s).1.error
        = some ("Failed to execute RCON command: " ++ e) ∧
      (hookExecuteCommand gw cmd s).2 = .error e) := by
  have hbase : ((lookupConn reg name).getD (defaultConn name)).isConnected
      = ((lookupConn reg name).map RconConnection.isConnected).getD false := by
    cases lookupConn reg name <;> simp [defaultConn]
  refine ⟨?_, ?_, ?_, ?_, ?_⟩
  · cases h : gw.executeCmd cmd <;>
      simp [executeCommand, h, lookupConn_updateConnection, applyUpdate, hbase]
  · intro r h
    simp [executeCommand, h, lookupConn_updateConnection, applyUpdate]
  · intro e h
    simp [executeCommand, h, lookupConn_updateConnection, applyUpdate]
  · intro r h
    cases hs : s.isConnected <;> simp [hookExecuteCommand, h, hs]
  · intro e h
    simp [hookExecuteCommand, h]

/-- Witness for amended claim C2: success case on a disconnected
"Survival" entry, failure case on a connected one. -/
theorem executeCommand_behaviour_witness :
    gwHappy.executeCmd "list" = .ok "done" ∧
    ((executeCommand gwHappy "Survival" "list" [("Survival", defaultConn "Survival")]).2.2
        = .ok "done" ∧
     (lookupConn
        (executeCommand gwHappy "Survival" "list" [("Survival", defaultConn "Survival")]).1
        "Survival").map RconConnection.error = some none) ∧
    gwExecFail.executeCmd "list" = .error "boom" ∧
    ((executeCommand gwExecFail "Survival" "list" [("Survival", defaultConn "Survival")]).2.2
        = .error "boom" ∧
     (lookupConn
        (executeCommand gwExecFail "Survival" "list" [("Survival", defaultConn "Survival")]).1
        "Survival").map RconConnection.error
       = some (some ("Failed to execute RCON command: " ++ "boom"))) ∧
    ((hookExecuteCommand gwHappy "list" initialHookState).1.isConnected = true ∧
     (hookExecuteCommand gwHappy "list" initialHookState).2 = .ok "done") ∧
    ((hookExecuteCommand gwExecFail "list" initialHookState).1.isConnected = false ∧
     (hookExecuteCommand gwExecFail "list" initialHookState).1.error
        = some ("Failed to execute RCON command: " ++ "boom") ∧
     (hookExecuteCommand gwExecFail "list" initialHookState).2 = .error "boom") :=
  ⟨rfl,
   (executeCommand_behaviour gwHappy "Survival" "list" [("Survival", defaultConn "Survival")]
      initialHookState).2.1 "done" rfl,
   rfl,
   (executeCommand_behaviour gwExecFail "Survival" "list" [("Survival", defaultConn "Survival")]
      initialHookState).2.2.1 "boom" rfl,
   (executeCommand_behaviour gwHappy "Survival" "list" [("Survival", defaultConn "Survival")]
      initialHookState).2.2.2.1 "done" rfl,
   (executeCommand_behaviour gwExecFail "Survival" "list" [("Survival", defaultConn "Survival")]
      initialHookState).2.2.2.2 "boom" rfl⟩

/-- Like `gwHappy` but the process-running query reports the server as
stopped. -/
def gwStopped : Gateway := { gwHappy with isServerRunning := .ok false }

/-- Claim C4: on a monitor tick, an entry marked connected whose backend
process is reported not running gets a full disconnect (the disconnect
RCON gateway call is issued); if the process is running, the reachability
re-query result is stored only when it disagrees with the current flag;
entries marked disconnected are not touched. -/
theorem monitor_tick_branches
    (gw : Gateway) (reg : Registry) (name : String) (c : RconConnection) :
    (c.isConnected = false → monitorStep gw reg name c = (reg, [])) ∧
    (c.isConnected = true → gw.isServerRunning = .ok false →
      monitorStep gw reg name c
        = ((disconnect gw name reg).1,
           .gw .isServerRunning :: (disconnect gw name reg).2.1) ∧
      Event.gw .disconnectRcon ∈ (monitorStep gw reg name c).2) ∧
    (c.isConnected = true → gw.isServerRunning = .ok true →
      (gw.isRconConnected = .ok true →
        monitorStep gw reg name c = (reg, [.gw .isServerRunning, .gw .isRconConnected])) ∧
      (∀ e, gw.isRconConnected = .error e →
        monitorStep gw reg name c = (reg, [.gw .isServerRunning, .gw .isRconConnected])) ∧
      (gw.isRconConnected = .ok false →
        (monitorStep gw reg name c).1
          = updateConnection reg name { isConnected := some false })) := by
  refine ⟨?_, ?_, ?_⟩
  · intro hc
    simp [monitorStep, hc]
  · intro hc hrun
    cases hd : gw.disconnectRcon with
    | ok u =>
        constructor <;> simp [monitorStep, hc, hrun, checkServerRunning, disconnect, hd]
    | error e =>
        constructor <;> simp [monitorStep, hc, hrun, checkServerRunning, disconnect, hd]
  · intro hc hrun
    refine ⟨?_, ?_, ?_⟩
    · intro hq
      simp [monitorStep, hc, hrun, checkServerRunning, hq]
    · intro e hq
      simp [monitorStep, hc, hrun, checkServerRunning, hq]
    · intro hq
      simp [monitorStep, hc, hrun, checkServerRunning, hq]

/-- Witness for claim C4: the disconnect branch at `gwStopped`, the
agreeing re-query branch at `gwHappy`, and the untouched branch for a
disconnected entry, all on a connected "Survival" entry. -/
theorem monitor_tick_branches_witness :
    ({ defaultConn "Survival" with isConnected := true } : RconConnection).isConnected
      = true ∧
    gwStopped.isServerRunning = .ok false ∧
    (monitorStep gwStopped [("Survival", { defaultConn "Survival" with isConnected := true })]
        "Survival" { defaultConn "Survival" with isConnected := true }
      = ((disconnect gwStopped "Survival"
            [("Survival", { defaultConn "Survival" with isConnected := true })]).1,
         .gw .isServerRunning ::
           (disconnect gwStopped "Survival"
            [("Survival", { defaultConn "Survival" with isConnected := true })]).2.1) ∧
     Event.gw .disconnectRcon ∈
       (monitorStep gwStopped
          [("Survival", { defaultConn "Survival" with isConnected := true })]
          "Survival" { defaultConn "Survival" with isConnected := true }).2) ∧
    (monitorStep gwHappy [("Survival", { defaultConn "Survival" with isConnected := true })]
        "Survival" { defaultConn "Survival" with isConnected := true }
      = ([("Survival", { defaultConn "Survival" with isConnected := true })],
         [.gw .isServerRunning, .gw .isRconConnected])) ∧
    (monitorStep gwHappy [("Survival", defaultConn "Survival")] "Survival"
        (defaultConn "Survival")
      = ([("Survival", defaultConn "Survival")], [])) :=
  ⟨rfl, rfl,
   (monitor_tick_branches gwStopped
      [("Survival", { defaultConn "Survival" with isConnected := true })] "Survival"
      { defaultConn "Survival" with isConnected := true }).2.1 rfl rfl,
   ((monitor_tick_branches gwHappy
      [("Survival", { defaultConn "Survival" with isConnected := true })] "Survival"
      { defaultConn "Survival" with isConnected := true }).2.2 rfl rfl).1 rfl,
   (monitor_tick_branches gwHappy [("Survival", defaultConn "Survival")] "Survival"
      (defaultConn "Survival")).1 rfl⟩

/-- Like `gwHappy` but the process-running query rejects. -/
def gwRunFail : Gateway := { gwHappy with isServerRunning := .error "timeout" }

/-- Like `gwHappy` but the reachability query rejects. -/
def gwReachFail : Gateway := { gwHappy with isRconConnected := .error "hiccup" }

/-- Counterexample to claim C6: a failing check-server-running poll does
not leave the state unchanged — `checkServerRunning` swallows the error
and reports `false`, so the monitor performs a full disconnect, flipping
the connected "Survival" entry to `isConnected = false`. -/
theorem monitor_poll_failure_cex :
    gwRunFail.isServerRunning = .error "timeout" ∧
    (lookupConn
        (monitorStep gwRunFail
          [("Survival", { defaultConn "Survival" with isConnected := true })]
          "Survival" { defaultConn "Survival" with isConnected := true }).1
        "Survival").map RconConnection.isConnected = some false :=
  ⟨rfl, rfl⟩

/-- Claim C6 (amended): in the registry monitor only a failure of the
reachability re-query is treated as "no information" (state unchanged,
logged only); a failure of the check-server-running query is read as
"not running" and triggers a full disconnect; and in the per-component
variant a failing reachability poll sets `isConnected = false`. -/
theorem monitor_poll_failure_behaviour
    (gw : Gateway) (reg : Registry) (name : String) (c : RconConnection) (s : HookState)
    (hc : c.isConnected = true) :
    (∀ e, gw.isServerRunning = .ok true → gw.isRconConnected = .error e →
      monitorStep gw reg name c = (reg, [.gw .isServerRunning, .gw .isRconConnected])) ∧
    (∀ e, gw.isServerRunning = .error e →
      monitorStep gw reg name c
        = ((disconnect gw name reg).1,
           .gw .isServerRunning :: (disconnect gw name reg).2.1)) ∧
    (∀ e, gw.isRconConnected = .error e →
      (checkConnectionStatus gw s).1.isConnected = false) := by
  refine ⟨?_, ?_, ?_⟩
  · intro e hrun hq
    simp [monitorStep, hc, hrun, checkServerRunning, hq]
  · intro e hrun
    cases hd : gw.disconnectRcon <;>
      simp [monitorStep, hc, hrun, checkServerRunning, disconnect, hd]
  · intro e hq
    simp [checkConnectionStatus, hq]

/-- Witness for amended claim C6 on a connected "Survival" entry: the
unchanged branch at `gwReachFail`, the disconnect branch at `gwRunFail`,
and the hook poll failure at `gwReachFail`. -/
theorem monitor_poll_failure_behaviour_witness :
    ({ defaultConn "Survival" with isConnected := true } : RconConnection).isConnected
      = true ∧
    gwReachFail.isRconConnected = .error "hiccup" ∧
    monitorStep gwReachFail
        [("Survival", { defaultConn "Survival" with isConnected := true })]
        "Survival" { defaultConn "Survival" with isConnected := true }
      = ([("Survival", { defaultConn "Survival" with isConnected := true })],
         [.gw .isServerRunning, .gw .isRconConnected]) ∧
    gwRunFail.isServerRunning = .error "timeout" ∧
    monitorStep gwRunFail
        [("Survival", { defaultConn "Survival" with isConnected := true })]
        "Survival" { defaultConn "Survival" with isConnected := true }
      = ((disconnect gwRunFail "Survival"
            [("Survival", { defaultConn "Survival" with isConnected := true })]).1,
         .gw .isServerRunning ::
           (disconnect gwRunFail "Survival"
            [("Survival", { defaultConn "Survival" with isConnected := true })]).2.1) ∧
    (checkConnectionStatus gwReachFail
        { isConnected := true, isConnecting := false, error := none }).1.isConnected
      = false :=
  ⟨rfl, rfl,
   (monitor_poll_failure_behaviour gwReachFail
      [("Survival", { defaultConn "Survival" with isConnected := true })] "Survival"
      { defaultConn "Survival" with isConnected := true }
      { isConnected := true, isConnecting := false, error := none } rfl).1 "hiccup" rfl rfl,
   rfl,
   (monitor_poll_failure_behaviour gwRunFail
      [("Survival", { defaultConn "Survival" with isConnected := true })] "Survival"
      { defaultConn "Survival" with isConnected := true }
      { isConnected := true, isConnecting := false, error := none } rfl).2.1 "timeout" rfl,
   (monitor_poll_failure_behaviour gwReachFail
      [("Survival", { defaultConn "Survival" with isConnected := true })] "Survival"
      { defaultConn "Survival" with isConnected := true }
      { isConnected := true, isConnecting := false, error := none } rfl).2.2 "hiccup" rfl⟩

/-- A backend where loader query, start and stop all succeed. -/
def sgwOk : ServerGateway :=
  { getLoaderType := .ok "vanilla"
    startServerCmd := fun _ => .ok "started"
    stopServerCmd := .ok "stopped" }

/-- Like `sgwOk` but the start-server call rejects. -/
def sgwStartFail : ServerGateway := { sgwOk with startServerCmd := fun _ => .error "jvm" }

/-- Like `sgwOk` but the stop-server call rejects. -/
def sgwStopFail : ServerGateway := { sgwOk with stopServerCmd := .error "hung" }

/-- Claim C8: start optimistically sets the status to online first, and
reverts to offline exactly when the loader query or the start call fails,
propagating the error; stop optimistically sets offline first, and on a
failing stop call propagates the error without reverting — the status
remains offline on every stop path. -/
theorem start_stop_optimistic_behaviour
    (sgw : ServerGateway) (name : String) (st : StatusMap) :
    (startServer sgw name st).2.1.head? = some (.set name .online) ∧
    (∀ e, (startServer sgw name st).2.2 = .error e →
      getServerStatus (startServer sgw name st).1 name = .offline) ∧
    ((startServer sgw name st).2.2 = .ok () →
      getServerStatus (startServer sgw name st).1 name = .online) ∧
    (∀ e, sgw.getLoaderType = .error e → (startServer sgw name st).2.2 = .error e) ∧
    (∀ l e, sgw.getLoaderType = .ok l → sgw.startServerCmd l = .error e →
      (startServer sgw name st).2.2 = .error e) ∧
    (stopServer sgw name st).2.1.head? = some (.set name .offline) ∧
    getServerStatus (stopServer sgw name st).1 name = .offline ∧
    (∀ e, sgw.stopServerCmd = .error e → (stopServer sgw name st).2.2 = .error e) := by
  refine ⟨?_, ?_, ?_, ?_, ?_, ?_, ?_, ?_⟩
  · cases hl : sgw.getLoaderType with
    | error e => simp [startServer, hl]
    | ok l => cases hs : sgw.startServerCmd l <;> simp [startServer, hl, hs]
  · intro e he
    cases hl : sgw.getLoaderType with
    | error e0 => simp [startServer, hl, getServerStatus_setServerStatus]
    | ok l =>
        cases hs : sgw.startServerCmd l with
        | error e0 => simp [startServer, hl, hs, getServerStatus_setServerStatus]
        | ok r => simp [startServer, hl, hs] at he
  · intro he
    cases hl : sgw.getLoaderType with
    | error e0 => simp [startServer, hl] at he
    | ok l =>
        cases hs : sgw.startServerCmd l with
        | error e0 => simp [startServer, hl, hs] at he
        | ok r => simp [startServer, hl, hs, getServerStatus_setServerStatus]
  · intro e hl
    simp [startServer, hl]
  · intro l e hl hs
    simp [startServer, hl, hs]
  · cases hs : sgw.stopServerCmd <;> simp [stopServer, hs]
  · cases hs : sgw.stopServerCmd <;> simp [stopServer, hs, getServerStatus_setServerStatus]
  · intro e hs
    simp [stopServer, hs]

/-- Witness for claim C8: the revert branch at `sgwStartFail`, the success
branch at `sgwOk`, and the non-reverting stop at `sgwStopFail`, all for
server "Survival" on an empty status map. -/
theorem start_stop_optimistic_behaviour_witness :
    (startServer sgwStartFail "Survival" []).2.2 = .error "jvm" ∧
    getServerStatus (startServer sgwStartFail "Survival" []).1 "Survival" = .offline ∧
    (startServer sgwOk "Survival" []).2.1.head? = some (.set "Survival" .online) ∧
    getServerStatus (startServer sgwOk "Survival" []).1 "Survival" = .online ∧
    getServerStatus (stopServer sgwStopFail "Survival" []).1 "Survival" = .offline ∧
    (stopServer sgwStopFail "Survival" []).2.2 = .error "hung" :=
  ⟨(start_stop_optimistic_behaviour sgwStartFail "Survival" []).2.2.2.2.1 "vanilla" "jvm"
      rfl rfl,
   (start_stop_optimistic_behaviour sgwStartFail "Survival" []).2.1 "jvm"
      ((start_stop_optimistic_behaviour sgwStartFail "Survival" []).2.2.2.2.1 "vanilla" "jvm"
        rfl rfl),
   (start_stop_optimistic_behaviour sgwOk "Survival" []).1,
   (start_stop_optimistic_behaviour sgwOk "Survival" []).2.2.1 rfl,
   (start_stop_optimistic_behaviour sgwStopFail "Survival" []).2.2.2.2.2.2.1,
   (start_stop_optimistic_behaviour sgwStopFail "Survival" []).2.2.2.2.2.2.2 "hung" rfl⟩

/-- Gateway invocations of a trace, in order. -/
def gwOps (evs : List Event) : List GwOp :=
  evs.filterMap fun ev =>
    match ev with
    | .gw op => some op
    | .regUpdate _ => none

/-- Counterexample to claim C9: for identical gateway responses (all
calls succeed, the verification query reports `false`) the two connect
variants issue different gateway-call sequences (the registry variant
performs a fourth, verification call) and end in different connection
states: the registry entry stays `isConnected = false` while the hook
sets `isConnected = true`. -/
theorem variants_not_equivalent_cex :
    (gwOps (connect gwVerFalse "Survival" DEFAULT_RCON_CONFIG []).2.1).length = 4 ∧
    (gwOps (hookConnect gwVerFalse DEFAULT_RCON_CONFIG initialHookState).2.1).length = 3 ∧
    (lookupConn (connect gwVerFalse "Survival" DEFAULT_RCON_CONFIG []).1 "Survival").map
        RconConnection.isConnected = some false ∧
    (hookConnect gwVerFalse DEFAULT_RCON_CONFIG initialHookState).1.isConnected = true :=
  ⟨rfl, rfl, rfl, rfl⟩

/-- Claim C9 (amended): the two connect variants share the password /
setup / connect protocol but are not call-for-call identical: the
registry variant issues one extra verification query and trusts its
result, while the hook sets `isConnected` directly. When every step
succeeds and the verification query returns `true`, the two produce the
same gateway-call sequence up to that final query and agree on the final
`isConnected`, `isConnecting`, `error` and promise outcome; the poll
cadences are fixed 5 s for the registry monitor and adaptive 3 s / 15 s
for the hook. -/
theorem variants_agree_when_verification_true
    (gw : Gateway) (name P : String) (cfg : RconConfig) (reg : Registry) (s : HookState)
    (hguardR : ((lookupConn reg name).map RconConnection.isConnecting).getD false = false)
    (hguardH : s.isConnecting = false)
    (hpw : gw.getPassword = .ok P)
    (hsetup : gw.setupRcon { cfg with password := P } = .ok ())
    (hconn : gw.connectRcon = .ok ())
    (hver : gw.isRconConnected = .ok true) :
    gwOps (connect gw name cfg reg).2.1
      = gwOps (hookConnect gw cfg s).2.1 ++ [GwOp.isRconConnected] ∧
    (lookupConn (connect gw name cfg reg).1 name).map RconConnection.isConnected
      = some (hookConnect gw cfg s).1.isConnected ∧
    (lookupConn (connect gw name cfg reg).1 name).map RconConnection.isConnecting
      = some (hookConnect gw cfg s).1.isConnecting ∧
    (lookupConn (connect gw name cfg reg).1 name).map RconConnection.error
      = some (hookConnect gw cfg s).1.error ∧
    (connect gw name cfg reg).2.2 = (hookConnect gw cfg s).2.2 ∧
    registryPollIntervalMs = 5000 ∧
    hookPollIntervalMs true = 3000 ∧ hookPollIntervalMs false = 15000 := by
  have hrp : resolvedPassword gw = P := by simp [resolvedPassword, hpw]
  have hhp : hookResolvedPassword gw cfg = P := by simp [hookResolvedPassword, hpw]
  refine ⟨?_, ?_, ?_, ?_, ?_, rfl, rfl, rfl⟩ <;>
    simp [connect, hookConnect, hguardR, hguardH, hrp, hhp, hsetup, hconn, hver,
          lookupConn_updateConnection, applyUpdate, gwOps]

/-- Witness for amended claim C9 at server "Survival", empty registry and
fresh hook state. -/
theorem variants_agree_when_verification_true_witness :
    gwHappy.getPassword = .ok "abc123" ∧
    initialHookState.isConnecting = false ∧
    (gwOps (connect gwHappy "Survival" DEFAULT_RCON_CONFIG []).2.1
      = gwOps (hookConnect gwHappy DEFAULT_RCON_CONFIG initialHookState).2.1
          ++ [GwOp.isRconConnected] ∧
     (lookupConn (connect gwHappy "Survival" DEFAULT_RCON_CONFIG []).1 "Survival").map
        RconConnection.isConnected
       = some (hookConnect gwHappy DEFAULT_RCON_CONFIG initialHookState).1.isConnected ∧
     (lookupConn (connect gwHappy "Survival" DEFAULT_RCON_CONFIG []).1 "Survival").map
        RconConnection.isConnecting
       = some (hookConnect gwHappy DEFAULT_RCON_CONFIG initialHookState).1.isConnecting ∧
     (lookupConn (connect gwHappy "Survival" DEFAULT_RCON_CONFIG []).1 "Survival").map
        RconConnection.error
       = some (hookConnect gwHappy DEFAULT_RCON_CONFIG initialHookState).1.error ∧
     (connect gwHappy "Survival" DEFAULT_RCON_CONFIG []).2.2
       = (hookConnect gwHappy DEFAULT_RCON_CONFIG initialHookState).2.2 ∧
     registryPollIntervalMs = 5000 ∧
     hookPollIntervalMs true = 3000 ∧ hookPollIntervalMs false = 15000) :=
  ⟨rfl, rfl,
   variants_agree_when_verification_true gwHappy "Survival" "abc123" DEFAULT_RCON_CONFIG []
     initialHookState rfl rfl rfl rfl rfl rfl⟩

end Allay
